import Mathlib

/-!
Verification development for the tax-simplify repository.

The repository is a React/TypeScript front end for an income-tax
estimator backed by a Flask API.  The front end ships a mock
`calculateTax` in `src/api/taxCalculator.ts` together with the
fiscal-year rule table; the Python computation engine itself is not
part of the front-end sources, so the engine components (slab walk,
rebate, surcharge and cess, rule validation, regime selection) are
modelled here from the specification, while the data-mapping layer,
the mock calculator and the form components are embedded directly
from the TypeScript sources.

Money and rates are modelled as rationals; JavaScript numbers in the
sources carry exact decimal values, so no precision is lost.
-/

namespace Engine

/-- Modelled from the spec: one entry of an ordered slab list,
`upperBound = none` meaning unbounded (the `limit: null` entries of
the rule table in `src/api/taxCalculator.ts`). -/
structure Slab where
  upperBound : Option ℚ
  rate : ℚ
deriving DecidableEq

/-- Modelled from the spec: the marginal slab walk of the missing
backend (spec 4.3).  Maintains a running lower bound; each slab taxes
the portion `max 0 (min income upper - lower)` at its rate; an
unbounded slab absorbs the whole remainder; once `income ≤ lower`
the remaining slabs contribute zero. -/
def slabWalk (income : ℚ) : ℚ → List Slab → ℚ
  | _, [] => 0
  | lower, s :: rest =>
    if income ≤ lower then 0
    else
      match s.upperBound with
      | some u => max 0 (min income u - lower) * s.rate + slabWalk income u rest
      | none => max 0 (income - lower) * s.rate + slabWalk income income rest

/-- Modelled from the spec: `computeSlabTax` of the missing backend;
taxable income below zero is treated as zero, then the slab walk
starts at lower bound 0. -/
def computeSlabTax (taxableIncome : ℚ) (slabs : List Slab) : ℚ :=
  slabWalk (max 0 taxableIncome) 0 slabs

/-- Rebate parameters, as in the `rebate_87A` entries of the rule
table in `src/api/taxCalculator.ts`. -/
structure Rebate where
  limit : ℚ
  incomeThreshold : ℚ
deriving DecidableEq

/-- Modelled from the spec: the section-87A rebate of the missing
backend (spec 4.6).  At or below the income threshold the rebate is
`min limit tax`, and the result is floored at 0; otherwise no
rebate. -/
def applyRebate (rebate : Rebate) (taxableIncome tax : ℚ) : ℚ :=
  if taxableIncome ≤ rebate.incomeThreshold then max 0 (tax - min rebate.limit tax)
  else tax

/-- Modelled from the spec: cliff-based surcharge lookup of the
missing backend (spec 4.5).  Tiers are `(incomeThreshold, rate)`
pairs in ascending threshold order; the applicable rate is that of
the highest tier whose threshold the income meets or exceeds, and 0
when no tier is met. -/
def surchargeRate (tiers : List (ℚ × ℚ)) (totalIncome : ℚ) : ℚ :=
  tiers.foldl (fun acc t => if t.1 ≤ totalIncome then t.2 else acc) 0

/-- Modelled from the spec: surcharge and cess application of the
missing backend (spec 4.5): flat surcharge on the base tax, then the
cess on tax plus surcharge. -/
def applySurchargeAndCess (baseTax totalIncome : ℚ) (tiers : List (ℚ × ℚ))
    (cessRate : ℚ) : ℚ :=
  (baseTax + baseTax * surchargeRate tiers totalIncome) * (1 + cessRate)

/-- Modelled from the spec: the full per-regime pipeline of the
missing backend, in the documented order slab tax → rebate →
surcharge → cess (spec 4.6/4.7). -/
def fullTax (taxableIncome : ℚ) (slabs : List Slab) (rebate : Rebate)
    (tiers : List (ℚ × ℚ)) (cessRate : ℚ) : ℚ :=
  applySurchargeAndCess
    (applyRebate rebate taxableIncome (computeSlabTax taxableIncome slabs))
    taxableIncome tiers cessRate

/-- Old-regime general slab set for 2023-24, from the rule table in
`src/api/taxCalculator.ts`. -/
def oldGeneralSlabs2023 : List Slab :=
  [⟨some 250000, 0⟩, ⟨some 500000, 0.05⟩, ⟨some 1000000, 0.20⟩, ⟨none, 0.30⟩]

/-- Old-regime senior-citizen slab set for 2023-24, from the rule
table in `src/api/taxCalculator.ts`. -/
def oldSeniorSlabs2023 : List Slab :=
  [⟨some 300000, 0⟩, ⟨some 500000, 0.05⟩, ⟨some 1000000, 0.20⟩, ⟨none, 0.30⟩]

/-- Old-regime super-senior slab set for 2023-24, from the rule table
in `src/api/taxCalculator.ts`. -/
def oldSuperSeniorSlabs2023 : List Slab :=
  [⟨some 500000, 0⟩, ⟨some 1000000, 0.20⟩, ⟨none, 0.30⟩]

/-- New-regime slab set for 2023-24, from the rule table in
`src/api/taxCalculator.ts`. -/
def newGeneralSlabs2023 : List Slab :=
  [⟨some 250000, 0⟩, ⟨some 500000, 0.05⟩, ⟨some 750000, 0.10⟩,
   ⟨some 1000000, 0.15⟩, ⟨some 1250000, 0.20⟩, ⟨some 1500000, 0.25⟩,
   ⟨none, 0.30⟩]

/-- Surcharge tiers for 2023-24 (both regimes), from the rule table
in `src/api/taxCalculator.ts`. -/
def surchargeTiers2023 : List (ℚ × ℚ) :=
  [(50000000, 0.10), (100000000, 0.15), (200000000, 0.25), (500000000, 0.37)]

/-- Rebate parameters for 2023-24, from the rule table in
`src/api/taxCalculator.ts`. -/
def rebate2023 : Rebate := ⟨12500, 500000⟩

/-- Health-and-education cess rate for 2023-24, from the rule table
in `src/api/taxCalculator.ts`. -/
def cessRate2023 : ℚ := 0.04

/-- One fiscal-year entry of the rule table of
`src/api/taxCalculator.ts`: standard deduction, rebate, the old
regime's three age-category slab sets, the new regime's single slab
set, per-regime surcharge tiers and cess rates. -/
structure FiscalYearRules where
  standardDeduction : ℚ
  rebate : Rebate
  oldGeneral : List Slab
  oldSenior : List Slab
  oldSuperSenior : List Slab
  newGeneral : List Slab
  oldSurcharge : List (ℚ × ℚ)
  newSurcharge : List (ℚ × ℚ)
  oldCess : ℚ
  newCess : ℚ
deriving DecidableEq

/-- Checks a candidate bound against the previous bound: the first
slab or tier has no predecessor, later ones must strictly exceed it. -/
def boundOk : Option ℚ → ℚ → Bool
  | none, _ => true
  | some p, u => decide (p < u)

/-- Modelled from the spec: load-time slab validation of the missing
rule registry (spec 4.1 and the section-3 invariant), carrying the
previous finite bound.  A slab list is accepted only when it is
nonempty, every slab but the last has a finite bound, bounds strictly
increase, the last slab is unbounded, and all rates lie in the unit
interval. -/
def validSlabsFrom : Option ℚ → List Slab → Bool
  | _, [] => false
  | _, [s] =>
    s.upperBound.isNone && decide (0 ≤ s.rate) && decide (s.rate ≤ 1)
  | prev, s :: rest =>
    match s.upperBound with
    | none => false
    | some u =>
      boundOk prev u && decide (0 ≤ s.rate) && decide (s.rate ≤ 1) &&
        validSlabsFrom (some u) rest

/-- Modelled from the spec: load-time surcharge-tier validation of
the missing rule registry: thresholds strictly increase and rates lie
in the unit interval. -/
def validTiersFrom : Option ℚ → List (ℚ × ℚ) → Bool
  | _, [] => true
  | prev, t :: rest =>
    boundOk prev t.1 && decide (0 ≤ t.2) && decide (t.2 ≤ 1) &&
      validTiersFrom (some t.1) rest

/-- Modelled from the spec: the load-time check of the missing rule
registry over a whole fiscal-year entry; returning false stands for
failing fast with InvalidRuleData before any calculation is served. -/
def validateRules (r : FiscalYearRules) : Bool :=
  validSlabsFrom none r.oldGeneral && validSlabsFrom none r.oldSenior &&
    validSlabsFrom none r.oldSuperSenior && validSlabsFrom none r.newGeneral &&
    validTiersFrom none r.oldSurcharge && validTiersFrom none r.newSurcharge &&
    decide (0 ≤ r.oldCess) && decide (r.oldCess ≤ 1) &&
    decide (0 ≤ r.newCess) && decide (r.newCess ≤ 1)

/-- Strict ascent of a bound list, relative to an optional previous
bound. -/
def AscendsFrom : Option ℚ → List ℚ → Prop
  | none, l => List.Chain' (· < ·) l
  | some p, l => List.Chain (· < ·) p l

/-- The section-3 invariant for one slab set: finite bounds strictly
increasing, an unbounded last entry, and all rates in the unit
interval. -/
def SlabInvariant (slabs : List Slab) : Prop :=
  List.Chain' (· < ·) (slabs.filterMap Slab.upperBound) ∧
    (∃ s, slabs.getLast? = some s ∧ s.upperBound = none) ∧
    ∀ s ∈ slabs, 0 ≤ s.rate ∧ s.rate ≤ 1

/-- The section-3 invariant for surcharge tiers: strictly increasing
thresholds and rates in the unit interval. -/
def TierInvariant (tiers : List (ℚ × ℚ)) : Prop :=
  List.Chain' (· < ·) (tiers.map Prod.fst) ∧
    ∀ t ∈ tiers, 0 ≤ t.2 ∧ t.2 ≤ 1

/-- The section-3 invariant for a whole fiscal-year entry. -/
def RulesInvariant (r : FiscalYearRules) : Prop :=
  SlabInvariant r.oldGeneral ∧ SlabInvariant r.oldSenior ∧
    SlabInvariant r.oldSuperSenior ∧ SlabInvariant r.newGeneral ∧
    TierInvariant r.oldSurcharge ∧ TierInvariant r.newSurcharge

theorem validSlabsFrom_sound (slabs : List Slab) :
    ∀ prev, validSlabsFrom prev slabs = true →
      AscendsFrom prev (slabs.filterMap Slab.upperBound) ∧
        (∃ s, slabs.getLast? = some s ∧ s.upperBound = none) ∧
        ∀ s ∈ slabs, 0 ≤ s.rate ∧ s.rate ≤ 1 := by
  induction slabs with
  | nil => intro prev h; simp [validSlabsFrom] at h
  | cons s rest ih =>
    intro prev h
    cases rest with
    | nil =>
      simp only [validSlabsFrom, Bool.and_eq_true, decide_eq_true_eq,
        Option.isNone_iff_eq_none] at h
      obtain ⟨⟨hnone, h0⟩, h1⟩ := h
      refine ⟨?_, ⟨s, rfl, hnone⟩, ?_⟩
      · simp only [List.filterMap, hnone]
        cases prev <;> simp [AscendsFrom]
      · intro t ht
        simp only [List.mem_singleton] at ht
        subst ht; exact ⟨h0, h1⟩
    | cons t rest' =>
      simp only [validSlabsFrom] at h
      cases hub : s.upperBound with
      | none => rw [hub] at h; simp at h
      | some u =>
        rw [hub] at h
        simp only [Bool.and_eq_true, decide_eq_true_eq] at h
        obtain ⟨⟨⟨hbound, h0⟩, h1⟩, hrest⟩ := h
        obtain ⟨hasc, hlast, hrates⟩ := ih (some u) hrest
        refine ⟨?_, ?_, ?_⟩
        · rw [List.filterMap_cons_some hub]
          cases prev with
          | none => exact hasc
          | some p =>
            simp only [boundOk, decide_eq_true_eq] at hbound
            exact List.Chain.cons hbound hasc
        · obtain ⟨z, hz, hznone⟩ := hlast
          exact ⟨z, by rw [List.getLast?_cons_cons]; exact hz, hznone⟩
        · intro w hw
          rcases List.mem_cons.mp hw with hw | hw
          · subst hw; exact ⟨h0, h1⟩
          · exact hrates w hw

theorem validTiersFrom_sound (tiers : List (ℚ × ℚ)) :
    ∀ prev, validTiersFrom prev tiers = true →
      AscendsFrom prev (tiers.map Prod.fst) ∧
        ∀ t ∈ tiers, 0 ≤ t.2 ∧ t.2 ≤ 1 := by
  induction tiers with
  | nil =>
    intro prev _
    refine ⟨?_, by simp⟩
    cases prev <;> simp [AscendsFrom]
  | cons t rest ih =>
    intro prev h
    simp only [validTiersFrom, Bool.and_eq_true, decide_eq_true_eq] at h
    obtain ⟨⟨⟨hbound, h0⟩, h1⟩, hrest⟩ := h
    obtain ⟨hasc, hrates⟩ := ih (some t.1) hrest
    refine ⟨?_, ?_⟩
    · simp only [List.map_cons]
      cases prev with
      | none => exact hasc
      | some p =>
        simp only [boundOk, decide_eq_true_eq] at hbound
        exact List.Chain.cons hbound hasc
    · intro w hw
      rcases List.mem_cons.mp hw with hw | hw
      · subst hw; exact ⟨h0, h1⟩
      · exact hrates w hw

/-- The full 2023-24 entry of the rule table in
`src/api/taxCalculator.ts`. -/
def rules2023_24 : FiscalYearRules :=
  { standardDeduction := 50000
    rebate := rebate2023
    oldGeneral := oldGeneralSlabs2023
    oldSenior := oldSeniorSlabs2023
    oldSuperSenior := oldSuperSeniorSlabs2023
    newGeneral := newGeneralSlabs2023
    oldSurcharge := surchargeTiers2023
    newSurcharge := surchargeTiers2023
    oldCess := cessRate2023
    newCess := cessRate2023 }

/-- The shipped 2025-26 entry of the rule table in
`src/api/taxCalculator.ts`: every slab array and surcharge map is
empty. -/
def rules2025_26 : FiscalYearRules :=
  { standardDeduction := 50000
    rebate := ⟨25000, 700000⟩
    oldGeneral := []
    oldSenior := []
    oldSuperSenior := []
    newGeneral := []
    oldSurcharge := []
    newSurcharge := []
    oldCess := 0.04
    newCess := 0.04 }

/-- Modelled from the spec: the deduction aggregator of the missing
backend for a section group sharing one combined cap (spec 4.4): the
contributions of the group are summed first, and the cap is applied
to the sum. -/
def combinedUsed (contributions : List ℚ) (limit : ℚ) : ℚ :=
  min contributions.sum limit

/-- The 80C combined deduction limit, from the `deduction_limits`
entry of the rule table in `src/api/taxCalculator.ts`. -/
def limit80C : ℚ := 150000

/-- The two regimes being compared. -/
inductive Regime where
  | old
  | new
deriving DecidableEq

/-- Modelled from the spec: the regime selection of the missing
backend (spec 4.7): the regime with the strictly lower final tax
wins, and exact ties resolve to the new regime. -/
def optimalRegime (oldTax newTax : ℚ) : Regime :=
  if newTax ≤ oldTax then Regime.new else Regime.old

theorem surchargeFold_nonneg (totalIncome : ℚ) (tiers : List (ℚ × ℚ)) :
    ∀ acc, 0 ≤ acc → (∀ t ∈ tiers, 0 ≤ t.2) →
      0 ≤ tiers.foldl (fun acc t => if t.1 ≤ totalIncome then t.2 else acc)
        acc := by
  induction tiers with
  | nil => intro acc hacc _; simpa using hacc
  | cons t rest ih =>
    intro acc hacc hrates
    simp only [List.foldl_cons]
    refine ih _ ?_ fun w hw => hrates w (List.mem_cons_of_mem t hw)
    by_cases h : t.1 ≤ totalIncome
    · rw [if_pos h]; exact hrates t (List.mem_cons_self t rest)
    · rw [if_neg h]; exact hacc

theorem surchargeRate_nonneg (tiers : List (ℚ × ℚ)) (totalIncome : ℚ)
    (hrates : ∀ t ∈ tiers, 0 ≤ t.2) : 0 ≤ surchargeRate tiers totalIncome :=
  surchargeFold_nonneg totalIncome tiers 0 le_rfl hrates

end Engine

/-- C2: every fiscal-year rule set accepted by the modelled registry
validation satisfies the section-3 invariant (slab bounds strictly
increasing with an unbounded last entry, rates in the unit interval,
surcharge thresholds strictly increasing), and the shipped 2025-26
entry, whose slab arrays are empty, is rejected at load time. -/
theorem validateRules_sound_and_2025_rejected :
    (∀ r : Engine.FiscalYearRules, Engine.validateRules r = true →
      Engine.RulesInvariant r) ∧
    Engine.validateRules Engine.rules2025_26 = false := by
  constructor
  · intro r h
    simp only [Engine.validateRules, Bool.and_eq_true] at h
    obtain ⟨⟨⟨⟨⟨⟨⟨⟨⟨h1, h2⟩, h3⟩, h4⟩, h5⟩, h6⟩, _⟩, _⟩, _⟩, _⟩ := h
    have s1 := Engine.validSlabsFrom_sound r.oldGeneral none h1
    have s2 := Engine.validSlabsFrom_sound r.oldSenior none h2
    have s3 := Engine.validSlabsFrom_sound r.oldSuperSenior none h3
    have s4 := Engine.validSlabsFrom_sound r.newGeneral none h4
    have t1 := Engine.validTiersFrom_sound r.oldSurcharge none h5
    have t2 := Engine.validTiersFrom_sound r.newSurcharge none h6
    exact ⟨⟨s1.1, s1.2⟩, ⟨s2.1, s2.2⟩, ⟨s3.1, s3.2⟩, ⟨s4.1, s4.2⟩,
      ⟨t1.1, t1.2⟩, ⟨t2.1, t2.2⟩⟩
  · rfl

/-- C2 witness: the 2023-24 entry passes the modelled validation, and
therefore enjoys the section-3 invariant by the soundness theorem. -/
theorem validateRules_sound_witness :
    Engine.validateRules Engine.rules2023_24 = true ∧
      Engine.RulesInvariant Engine.rules2023_24 := by
  have hv : Engine.validateRules Engine.rules2023_24 = true := by
    norm_num [Engine.validateRules, Engine.validSlabsFrom, Engine.validTiersFrom,
      Engine.boundOk, Engine.rules2023_24, Engine.oldGeneralSlabs2023,
      Engine.oldSeniorSlabs2023, Engine.oldSuperSeniorSlabs2023,
      Engine.newGeneralSlabs2023, Engine.surchargeTiers2023, Engine.cessRate2023]
  exact ⟨hv, validateRules_sound_and_2025_rejected.1 Engine.rules2023_24 hv⟩

/-- C1: for the 2023-24 old-regime general slab set, taxable income
600000 yields slab tax 32500 by the marginal walk; the rebate does
not apply (600000 exceeds the 500000 threshold), no surcharge tier is
met, and the 4 percent cess brings the final tax to exactly 33800. -/
theorem scenario2023_general_600000 :
    Engine.computeSlabTax 600000 Engine.oldGeneralSlabs2023 = 32500 ∧
    Engine.fullTax 600000 Engine.oldGeneralSlabs2023 Engine.rebate2023
      Engine.surchargeTiers2023 Engine.cessRate2023 = 33800 := by
  norm_num [Engine.computeSlabTax, Engine.slabWalk, Engine.fullTax,
    Engine.applyRebate, Engine.applySurchargeAndCess, Engine.surchargeRate,
    Engine.oldGeneralSlabs2023, Engine.rebate2023, Engine.surchargeTiers2023,
    Engine.cessRate2023, List.foldl]

/-- C3: whenever taxable income is at or below the rebate income
threshold, the final tax of the modelled pipeline is non-negative:
the rebate is capped at the tax before rebate and the result is
floored at 0, and non-negative surcharge and cess rates preserve the
sign. -/
theorem fullTax_nonneg_below_threshold (slabs : List Engine.Slab)
    (rebate : Engine.Rebate) (tiers : List (ℚ × ℚ)) (cessRate income : ℚ)
    (hIncome : income ≤ rebate.incomeThreshold)
    (hTiers : ∀ t ∈ tiers, 0 ≤ t.2) (hCess : 0 ≤ cessRate) :
    0 ≤ Engine.fullTax income slabs rebate tiers cessRate := by
  rw [Engine.fullTax, Engine.applySurchargeAndCess]
  have ht : 0 ≤ Engine.applyRebate rebate income
      (Engine.computeSlabTax income slabs) := by
    rw [Engine.applyRebate, if_pos hIncome]
    exact le_max_left 0 _
  have hr := Engine.surchargeRate_nonneg tiers income hTiers
  have h1 : 0 ≤ Engine.applyRebate rebate income
      (Engine.computeSlabTax income slabs) +
      Engine.applyRebate rebate income (Engine.computeSlabTax income slabs) *
        Engine.surchargeRate tiers income := by nlinarith
  have h2 : (0 : ℚ) ≤ 1 + cessRate := by linarith
  exact mul_nonneg h1 h2

/-- C3 witness: at taxable income 480000 under the 2023-24 old-regime
rules the threshold hypothesis holds and the final tax is
non-negative. -/
theorem fullTax_nonneg_below_threshold_witness :
    (480000 : ℚ) ≤ Engine.rebate2023.incomeThreshold ∧
      0 ≤ Engine.fullTax 480000 Engine.oldGeneralSlabs2023 Engine.rebate2023
        Engine.surchargeTiers2023 Engine.cessRate2023 := by
  have hInc : (480000 : ℚ) ≤ Engine.rebate2023.incomeThreshold := by
    norm_num [Engine.rebate2023]
  refine ⟨hInc, fullTax_nonneg_below_threshold _ _ _ _ _ hInc ?_ ?_⟩
  · intro t ht
    simp only [Engine.surchargeTiers2023, List.mem_cons, List.mem_singleton,
      List.not_mem_nil] at ht
    rcases ht with h | h | h | h | h <;> first
      | (subst h; norm_num)
      | exact absurd h (by simp)
  · norm_num [Engine.cessRate2023]

/-- C4: a deduction-section group sharing one combined cap reports a
used amount that never exceeds the configured limit; the group is
summed before capping, so with the 80C limit of 150000 from the rule
table, contributions of 100000 and 80000 report 150000 used, whereas
capping each sub-component independently would pass 180000. -/
theorem combinedUsed_never_exceeds_limit :
    (∀ (contributions : List ℚ) (limit : ℚ),
      Engine.combinedUsed contributions limit ≤ limit) ∧
    (∀ (contributions : List ℚ) (limit : ℚ),
      Engine.combinedUsed contributions limit =
        min contributions.sum limit) ∧
    Engine.combinedUsed [100000, 80000] Engine.limit80C = 150000 ∧
    (([100000, 80000] : List ℚ).map fun c => min c Engine.limit80C).sum =
      180000 := by
  refine ⟨fun cs l => min_le_right _ _, fun cs l => rfl, ?_, ?_⟩
  · norm_num [Engine.combinedUsed, Engine.limit80C, min_def]
  · norm_num [Engine.limit80C, min_def]

/-- C7: the modelled regime selector returns the strictly cheaper
regime, resolves exact ties to the new regime, and swapping the two
tax values flips the selection except at ties. -/
theorem optimalRegime_lower_tie_swap :
    ∀ oldTax newTax : ℚ,
      (newTax < oldTax →
        Engine.optimalRegime oldTax newTax = Engine.Regime.new) ∧
      (oldTax < newTax →
        Engine.optimalRegime oldTax newTax = Engine.Regime.old) ∧
      (oldTax = newTax →
        Engine.optimalRegime oldTax newTax = Engine.Regime.new) ∧
      (oldTax ≠ newTax →
        Engine.optimalRegime newTax oldTax ≠
          Engine.optimalRegime oldTax newTax) := by
  intro o n
  refine ⟨fun h => ?_, fun h => ?_, fun h => ?_, fun h => ?_⟩
  · rw [Engine.optimalRegime, if_pos h.le]
  · rw [Engine.optimalRegime, if_neg (not_le.mpr h)]
  · rw [Engine.optimalRegime, if_pos h.ge]
  · rcases h.lt_or_lt with hlt | hlt
    · simp only [Engine.optimalRegime]
      rw [if_pos hlt.le, if_neg (not_le.mpr hlt)]
      simp
    · simp only [Engine.optimalRegime]
      rw [if_neg (not_le.mpr hlt), if_pos hlt.le]
      simp

/-- C7 witness: concrete selections at 5 versus 3, the swapped pair,
and an exact tie at 4. -/
theorem optimalRegime_lower_tie_swap_witness :
    (3 : ℚ) < 5 ∧ Engine.optimalRegime 5 3 = Engine.Regime.new ∧
      Engine.optimalRegime 3 5 = Engine.Regime.old ∧
      Engine.optimalRegime 4 4 = Engine.Regime.new :=
  ⟨by norm_num, (optimalRegime_lower_tie_swap 5 3).1 (by norm_num),
    (optimalRegime_lower_tie_swap 3 5).2.1 (by norm_num),
    (optimalRegime_lower_tie_swap 4 4).2.2.1 rfl⟩

/-- The gender union type of the TypeScript sources. -/
inductive Gender where
  | male
  | female
  | other
deriving DecidableEq

namespace Api

/-- The TaxCalculationRequest interface of
`src/api/taxCalculator.ts` (lines 2-41).  The `birthDate` string is
kept as a string; numbers are rationals. -/
structure TaxCalculationRequest where
  email : String
  birthDate : String
  gender : Gender
  employmentType : String
  residencyCountry : String
  hasDependentSeniorParents : Bool
  basicSalary : ℚ
  hraReceived : Bool
  hraAmount : ℚ
  cityType : String
  taxSavingInvestments : ℚ
  npsContribution : String
  healthInsurance : ℚ
  hasStudentLoan : Bool
  studentLoanInterest : ℚ
  hasHousingLoan : Bool
  isSelfOccupied : Bool
  housingLoanInterest : ℚ
  capitalGains : ℚ
  gainsAmount : ℚ
  dividends : ℚ
  investmentType : String
  digitalAssetsSale : ℚ
  disabilityStatus : String
  criticalIllnessExpenses : ℚ
  hasDisabledDependents : Bool
  dependentMedicalExpenses : ℚ
deriving DecidableEq

/-- The oldRegime part of the mock response of
`src/api/taxCalculator.ts`. -/
structure OldRegimeResult where
  currentTaxLiability : ℚ
  potentialSavings : ℚ
  optimizedTaxPayable : ℚ
deriving DecidableEq

/-- The newRegime part of the mock response of
`src/api/taxCalculator.ts`. -/
structure NewRegimeResult where
  optimizedTaxPayable : ℚ
deriving DecidableEq

/-- The TaxCalculationResponse interface of
`src/api/taxCalculator.ts` (lines 43-52). -/
structure TaxCalculationResponse where
  oldRegime : OldRegimeResult
  newRegime : NewRegimeResult
deriving DecidableEq

/-- The mock calculateTax of `src/api/taxCalculator.ts` (lines
54-78): the value it resolves with, a pure function of the request
(the console logging and the simulated delay do not touch the
value). -/
def calculateTax (data : TaxCalculationRequest) : TaxCalculationResponse :=
  { oldRegime :=
      { currentTaxLiability := data.basicSalary * 0.2
        potentialSavings := data.taxSavingInvestments * 0.1
        optimizedTaxPayable :=
          data.basicSalary * 0.2 - data.taxSavingInvestments * 0.1 }
    newRegime := { optimizedTaxPayable := data.basicSalary * 0.15 } }

end Api

/-- A JavaScript value as relevant here: a number or an object, the
object being an ordered list of string-keyed fields. -/
inductive JsValue where
  | num (q : ℚ)
  | obj (fields : List (String × JsValue))

/-- Field lookup in an object's field list, first match wins. -/
def lookupField : List (String × JsValue) → String → Option JsValue
  | [], _ => none
  | (k, v) :: rest, key => if k = key then some v else lookupField rest key

/-- JavaScript member access: on an object, the field's value when
the key is present and undefined (none) otherwise; on a number,
undefined. -/
def getField : JsValue → String → Option JsValue
  | JsValue.num _, _ => none
  | JsValue.obj fields, key => lookupField fields key

/-- The keys of a JavaScript object value. -/
def objKeys : JsValue → List String
  | JsValue.num _ => []
  | JsValue.obj fields => fields.map Prod.fst

/-- The object literal returned by the mock calculateTax of
`src/api/taxCalculator.ts`, viewed as a JavaScript value with its
exact keys. -/
def calculateTaxObject (data : Api.TaxCalculationRequest) : JsValue :=
  JsValue.obj
    [("oldRegime", JsValue.obj
        [("currentTaxLiability",
          JsValue.num (Api.calculateTax data).oldRegime.currentTaxLiability),
         ("potentialSavings",
          JsValue.num (Api.calculateTax data).oldRegime.potentialSavings),
         ("optimizedTaxPayable",
          JsValue.num (Api.calculateTax data).oldRegime.optimizedTaxPayable)]),
     ("newRegime", JsValue.obj
        [("optimizedTaxPayable",
          JsValue.num (Api.calculateTax data).newRegime.optimizedTaxPayable)])]

/-- A calendar date as the mapping layer uses it: the year, month and
day components that the JavaScript Date accessors return. -/
structure Date where
  year : ℤ
  month : ℕ
  day : ℕ
deriving DecidableEq

namespace App

/-- PersonalInfo of `src/types/tax-calculator.ts`; `birthDate` stands
for the parsed value of the form's date string. -/
structure PersonalInfo where
  email : String
  birthDate : Date
  gender : Gender
  employmentType : String
  residencyCountry : String
  hasDependentSeniorParents : Bool

/-- IncomeDetails of `src/types/tax-calculator.ts`. -/
structure IncomeDetails where
  basicSalary : ℚ
  hraReceived : Bool
  hraAmount : ℚ
  cityType : String

/-- InvestmentDetails of `src/types/tax-calculator.ts`; the NPS
contribution is a string there. -/
structure InvestmentDetails where
  taxSavingInvestments : ℚ
  npsContribution : String
  healthInsurance : ℚ

/-- LoanDetails of `src/types/tax-calculator.ts`. -/
structure LoanDetails where
  hasStudentLoan : Bool
  studentLoanInterest : ℚ
  hasHousingLoan : Bool
  isSelfOccupied : Bool
  housingLoanInterest : ℚ

/-- InvestmentGains of `src/types/tax-calculator.ts`. -/
structure InvestmentGains where
  capitalGains : ℚ
  gainsAmount : ℚ
  dividends : ℚ
  investmentType : String
  digitalAssetsSale : ℚ

/-- MedicalDetails of `src/types/tax-calculator.ts`. -/
structure MedicalDetails where
  disabilityStatus : String
  criticalIllnessExpenses : ℚ
  hasDisabledDependents : Bool
  dependentMedicalExpenses : ℚ

/-- TaxFormData of `src/types/tax-calculator.ts`. -/
structure TaxFormData where
  step : ℕ
  personalInfo : PersonalInfo
  incomeDetails : IncomeDetails
  investmentDetails : InvestmentDetails
  loanDetails : LoanDetails
  investmentGains : InvestmentGains
  medicalDetails : MedicalDetails

/-- A JavaScript value that is either a string or a number, as
produced by the untyped expression `npsContribution || 0` of the
mapping layer. -/
inductive StringOrNum where
  | str (s : String)
  | num (q : ℚ)
deriving DecidableEq

/-- JavaScript `s || 0` on a string: the empty string is the only
falsy string, so it yields the number 0, and any other string passes
through unchanged. -/
def jsOrZero (s : String) : StringOrNum :=
  if s = "" then StringOrNum.num 0 else StringOrNum.str s

/-- The TaxCalculationRequest interface sent to the backend, from the
mapping layer source (unnamed part 006, lines 165-212). -/
structure TaxCalculationRequest where
  income : ℚ
  age : ℤ
  gender : Gender
  city : String
  rent : ℚ
  has_hra : Bool
  basic_salary : ℚ
  hra_received : ℚ
  property_self_occupied : Bool
  home_loan_interest : ℚ
  home_loan_principal_80c : ℚ
  sec_80ee : Bool
  sec_80eea : Bool
  total_80c_investments : ℚ
  nps_80ccd_1b : StringOrNum
  health_insurance_self_parents : ℚ
  is_disabled_self : Bool
  is_disabled_dependent : Bool
  severe_disability_self : Bool
  severe_disability_dep : Bool
  critical_illness_bills : ℚ
  student_loan_interest : ℚ
  donations_80g : ℚ
  royalty_income_80rrb : ℚ
  is_startup_investments : Bool
  startup_investments_80iac : ℚ
  cooperative_society_80p : ℚ
  number_of_new_employees_80jjaa : ℚ
  new_employees_wages_80jjaa : ℚ
  deduction_from_scientific_research : ℚ
  is_exempted_under_80gge : Bool
  savings_interest_80tta : ℚ
  interest_income_80ttb : ℚ
  donation_100pct_no_limit : ℚ
  donation_50pct_no_limit : ℚ
  donation_100pct_with_limit : ℚ
  donation_50pct_with_limit : ℚ

/-- The mapFormDataToRequest function of the mapping layer (unnamed
part 006, lines 249-293), embedded field by field.  `currentDate`
stands for the `new Date()` read of the wall clock; the age is the
bare difference of the getFullYear values. -/
def mapFormDataToRequest (currentDate : Date) (formData : TaxFormData) :
    TaxCalculationRequest :=
  { income := formData.incomeDetails.basicSalary
    age := currentDate.year - formData.personalInfo.birthDate.year
    gender := formData.personalInfo.gender
    city := formData.incomeDetails.cityType
    rent := 0
    has_hra := formData.incomeDetails.hraReceived
    basic_salary := formData.incomeDetails.basicSalary
    hra_received := formData.incomeDetails.hraAmount
    property_self_occupied := formData.loanDetails.isSelfOccupied
    home_loan_interest := formData.loanDetails.housingLoanInterest
    home_loan_principal_80c := 0
    sec_80ee := false
    sec_80eea := false
    total_80c_investments := formData.investmentDetails.taxSavingInvestments
    nps_80ccd_1b := jsOrZero formData.investmentDetails.npsContribution
    health_insurance_self_parents := formData.investmentDetails.healthInsurance
    is_disabled_self := formData.medicalDetails.disabilityStatus != "None"
    is_disabled_dependent := formData.medicalDetails.hasDisabledDependents
    severe_disability_self := formData.medicalDetails.disabilityStatus == "Severe"
    severe_disability_dep := false
    critical_illness_bills := formData.medicalDetails.criticalIllnessExpenses
    student_loan_interest := formData.loanDetails.studentLoanInterest
    donations_80g := 0
    royalty_income_80rrb := 0
    is_startup_investments := false
    startup_investments_80iac := 0
    cooperative_society_80p := 0
    number_of_new_employees_80jjaa := 0
    new_employees_wages_80jjaa := 0
    deduction_from_scientific_research := 0
    is_exempted_under_80gge := false
    savings_interest_80tta := 0
    interest_income_80ttb := 0
    donation_100pct_no_limit := 0
    donation_50pct_no_limit := 0
    donation_100pct_with_limit := 0
    donation_50pct_with_limit := 0 }

/-- The taxpayer's age in whole completed years at the calculation
date, written after the spec's words (integer years, floored at the
snapshot date): one less than the calendar-year difference while the
birthday is still ahead in the current year. -/
def flooredAgeSpec (birth current : Date) : ℤ :=
  current.year - birth.year -
    (if current.month < birth.month ∨
        (current.month = birth.month ∧ current.day < birth.day)
      then 1 else 0)

/-- The disability-status options offered by the mounted
medical-details form,
`src/components/tax-calculator/MedicalDetailsForm.tsx` lines 49-51
(the component that `src/pages/Index.tsx` imports): None, Severe and
Partial. -/
def disabilityStatusOptions : List String := ["None", "Severe", "Partial"]

/-- The initial disability status of the form state, from the default
form data of the mounted `src/context/TaxFormContext.tsx`, line 51. -/
def defaultDisabilityStatus : String := "None"

/-- The disability statuses a form state can hold: the initial value,
or any value offered by the select control of the mounted
medical-details form. -/
inductive ReachableDisabilityStatus : String → Prop where
  | initial : ReachableDisabilityStatus defaultDisabilityStatus
  | selected (s : String) (hmem : s ∈ disabilityStatusOptions) :
      ReachableDisabilityStatus s

/-- The default form state of `src/context/TaxFormContext.tsx`
(unnamed part 004, lines 11-52), with the birth-date string replaced
by a given parsed date. -/
def defaultFormDataWith (birth : Date) : TaxFormData :=
  { step := 1
    personalInfo :=
      { email := ""
        birthDate := birth
        gender := Gender.male
        employmentType := ""
        residencyCountry := ""
        hasDependentSeniorParents := false }
    incomeDetails :=
      { basicSalary := 0, hraReceived := false, hraAmount := 0, cityType := "" }
    investmentDetails :=
      { taxSavingInvestments := 0, npsContribution := "", healthInsurance := 0 }
    loanDetails :=
      { hasStudentLoan := false
        studentLoanInterest := 0
        hasHousingLoan := false
        isSelfOccupied := false
        housingLoanInterest := 0 }
    investmentGains :=
      { capitalGains := 0
        gainsAmount := 0
        dividends := 0
        investmentType := ""
        digitalAssetsSale := 0 }
    medicalDetails :=
      { disabilityStatus := defaultDisabilityStatus
        criticalIllnessExpenses := 0
        hasDisabledDependents := false
        dependentMedicalExpenses := 0 } }

end App

/-- C5 counterexample: for a taxpayer born on 31 December 2000, at a
calculation date of 1 January 2026 the mapping layer supplies age 26
while the floored completed-years age is 25. -/
theorem mapped_age_not_floored :
    (App.mapFormDataToRequest ⟨2026, 1, 1⟩
        (App.defaultFormDataWith ⟨2000, 12, 31⟩)).age ≠
      App.flooredAgeSpec ⟨2000, 12, 31⟩ ⟨2026, 1, 1⟩ := by
  decide

/-- C5 (amended): the age supplied to the engine is the bare
difference of the calendar years of the calculation date and the
birth date; it equals the floored completed-years age only when the
birthday has already occurred in the calculation year, and exceeds it
by one otherwise. -/
theorem mapped_age_calendar_year_difference :
    ∀ (currentDate : Date) (formData : App.TaxFormData),
      (App.mapFormDataToRequest currentDate formData).age =
        App.flooredAgeSpec formData.personalInfo.birthDate currentDate +
          (if currentDate.month < formData.personalInfo.birthDate.month ∨
              (currentDate.month = formData.personalInfo.birthDate.month ∧
                currentDate.day < formData.personalInfo.birthDate.day)
            then 1 else 0) := by
  intro currentDate formData
  simp only [App.mapFormDataToRequest, App.flooredAgeSpec]
  split <;> ring

/-- C6: the request produced by the mapping layer carries a
hard-coded rent of 0 for every form state and every calculation
date. -/
theorem mapped_rent_always_zero :
    ∀ (currentDate : Date) (formData : App.TaxFormData),
      (App.mapFormDataToRequest currentDate formData).rent = 0 :=
  fun _ _ => rfl

/-- C8: the mock calculateTax is a pure function of its request:
identical requests produce identical responses, and the response in
fact depends on nothing but the basic salary and the tax-saving
investments it reads. -/
theorem calculateTax_pure_function :
    (∀ d₁ d₂ : Api.TaxCalculationRequest, d₁ = d₂ →
      Api.calculateTax d₁ = Api.calculateTax d₂) ∧
    (∀ d₁ d₂ : Api.TaxCalculationRequest,
      d₁.basicSalary = d₂.basicSalary →
      d₁.taxSavingInvestments = d₂.taxSavingInvestments →
      Api.calculateTax d₁ = Api.calculateTax d₂) := by
  constructor
  · intro d₁ d₂ h
    rw [h]
  · intro d₁ d₂ h1 h2
    simp only [Api.calculateTax, h1, h2]

/-- A concrete request for exercising the mock calculator. -/
def sampleRequest : Api.TaxCalculationRequest :=
  { email := ""
    birthDate := ""
    gender := Gender.female
    employmentType := ""
    residencyCountry := ""
    hasDependentSeniorParents := false
    basicSalary := 1200000
    hraReceived := false
    hraAmount := 0
    cityType := ""
    taxSavingInvestments := 150000
    npsContribution := ""
    healthInsurance := 0
    hasStudentLoan := false
    studentLoanInterest := 0
    hasHousingLoan := false
    isSelfOccupied := false
    housingLoanInterest := 0
    capitalGains := 0
    gainsAmount := 0
    dividends := 0
    investmentType := ""
    digitalAssetsSale := 0
    disabilityStatus := ""
    criticalIllnessExpenses := 0
    hasDisabledDependents := false
    dependentMedicalExpenses := 0 }

/-- C8 witness: two runs of the mock calculator on one concrete
request coincide. -/
theorem calculateTax_pure_function_witness :
    sampleRequest = sampleRequest ∧
      Api.calculateTax sampleRequest = Api.calculateTax sampleRequest :=
  ⟨rfl, calculateTax_pure_function.1 sampleRequest sampleRequest rfl⟩

/-- C9: the object the mock calculateTax resolves with has exactly
the camelCase keys oldRegime and newRegime, so the snake_case
accesses old_regime, new_regime and optimal_regime performed by the
TaxResults component on a successful result are all undefined. -/
theorem calculateTax_response_keys :
    ∀ data : Api.TaxCalculationRequest,
      objKeys (calculateTaxObject data) = ["oldRegime", "newRegime"] ∧
      getField (calculateTaxObject data) "old_regime" = none ∧
      getField (calculateTaxObject data) "new_regime" = none ∧
      getField (calculateTaxObject data) "optimal_regime" = none := by
  intro data
  exact ⟨rfl, rfl, rfl, rfl⟩

theorem reachableDisabilityStatus_mem (s : String) :
    App.ReachableDisabilityStatus s → s ∈ App.disabilityStatusOptions := by
  intro h
  cases h with
  | initial => simp [App.defaultDisabilityStatus, App.disabilityStatusOptions]
  | selected s hmem => exact hmem

/-- A concrete form state whose disability status is the Severe
option of the mounted medical-details select control. -/
def severeDisabilityForm : App.TaxFormData :=
  { App.defaultFormDataWith ⟨1990, 1, 1⟩ with
    medicalDetails :=
      { disabilityStatus := "Severe"
        criticalIllnessExpenses := 0
        hasDisabledDependents := false
        dependentMedicalExpenses := 0 } }

/-- C10 counterexample: the mounted medical-details form offers the
Severe option, so a reachable form state carries a status outside
None, Partial and Full, and for it the mapping's severe-disability
branch fires: severe_disability_self is true. -/
theorem severe_status_reachable_counterexample :
    App.ReachableDisabilityStatus
        severeDisabilityForm.medicalDetails.disabilityStatus ∧
      severeDisabilityForm.medicalDetails.disabilityStatus ∉
        (["None", "Partial", "Full"] : List String) ∧
      (App.mapFormDataToRequest ⟨2026, 1, 1⟩
          severeDisabilityForm).severe_disability_self = true :=
  ⟨App.ReachableDisabilityStatus.selected _ (by decide), by decide, by decide⟩

/-- C10 (amended): every form state reachable through the mounted
medical-details UI carries a disability status among None, Severe and
Partial; the mapped request sets severe_disability_self exactly when
the status is Severe — so the severe branch of the mapping is
reachable — and sets is_disabled_self exactly when the status differs
from None. -/
theorem severe_disability_branch_reachable :
    ∀ (currentDate : Date) (formData : App.TaxFormData),
      App.ReachableDisabilityStatus formData.medicalDetails.disabilityStatus →
      formData.medicalDetails.disabilityStatus ∈
          App.disabilityStatusOptions ∧
        ((App.mapFormDataToRequest currentDate
              formData).severe_disability_self = true ↔
          formData.medicalDetails.disabilityStatus = "Severe") ∧
        ((App.mapFormDataToRequest currentDate formData).is_disabled_self =
            true ↔
          formData.medicalDetails.disabilityStatus ≠ "None") := by
  intro currentDate formData h
  refine ⟨reachableDisabilityStatus_mem _ h, ?_, ?_⟩
  · simp [App.mapFormDataToRequest, beq_iff_eq]
  · simp [App.mapFormDataToRequest, bne_iff_ne]

/-- C10 witness: the Severe status is reachable, lies among the
mounted form's options, and for it the mapped request reports both a
severe disability and a disability. -/
theorem severe_disability_branch_reachable_witness :
    App.ReachableDisabilityStatus
        severeDisabilityForm.medicalDetails.disabilityStatus ∧
      severeDisabilityForm.medicalDetails.disabilityStatus ∈
        App.disabilityStatusOptions ∧
      (App.mapFormDataToRequest ⟨2026, 1, 1⟩
          severeDisabilityForm).severe_disability_self = true ∧
      (App.mapFormDataToRequest ⟨2026, 1, 1⟩
          severeDisabilityForm).is_disabled_self = true := by
  have hreach : App.ReachableDisabilityStatus
      severeDisabilityForm.medicalDetails.disabilityStatus :=
    App.ReachableDisabilityStatus.selected _ (by decide)
  have hmain :=
    severe_disability_branch_reachable ⟨2026, 1, 1⟩ severeDisabilityForm hreach
  exact ⟨hreach, hmain.1, hmain.2.1.mpr (by decide), hmain.2.2.mpr (by decide)⟩
